import Mathlib

/-!
Verification of the Tubely video-hosting backend (learn-file-storage-s3-golang
starter).  The Go source is shallowly embedded below: pure string and integer
helpers become Lean functions, and the effectful upload pipeline becomes a
function from an abstract environment (recording the outcome of every external
call) to the list of observable events it performs plus the final on-disk
state of its temporary files.  Go machine integers are modelled as `Int`
(no value in this code comes near 2^63, so wrap-around is irrelevant), and
Go integer division, which truncates toward zero, is `Int.tdiv`.
-/

namespace Tubely

/-- Embeds Go `strings.Split(s, sep)` for a one-character separator,
working on the character list.  `strings.Split` on a non-empty separator
always returns at least one (possibly empty) piece. -/
def splitAux (sep : Char) : List Char → List (List Char)
  | [] => [[]]
  | c :: rest =>
    match splitAux sep rest with
    | [] => [[]]
    | g :: gs => if c = sep then [] :: g :: gs else (c :: g) :: gs

/-- Go `strings.Split(s, string(sep))` for a single-character separator. -/
def goSplit (s : String) (sep : Char) : List String :=
  (splitAux sep s.data).map fun g => String.mk g

/-- Embeds `mediaTypeToExtension` (part_000/part_001): split the MIME type on
the slash; anything that does not split into exactly two parts falls back to
".bin", otherwise the extension is a dot plus the subtype. -/
def mediaTypeToExtension (mediaType : String) : String :=
  let parts := goSplit mediaType '/'
  if h : parts.length = 2 then "." ++ parts.get ⟨1, by omega⟩
  else ".bin"

/-- Embeds `generateRandomNameWithExtensionType` (part_000): the 32 random
bytes are drawn externally, so their URL-safe base64 encoding `randomID` is a
parameter; the function appends the extension derived from the media type. -/
def generateRandomNameWithExtensionType (randomID mediaType : String) : String :=
  randomID ++ mediaTypeToExtension mediaType

/-- Embeds Go `filepath.Join(a, b)` for the clean, relative, separator-free
components this program produces (an aspect bucket and a random file name). -/
def filepathJoin (a b : String) : String :=
  if a = "" then b else if b = "" then a else a ++ "/" ++ b

/-- Embeds `getObjectURL` (part_000): the expanded public object URL
`https://<bucket>.s3.<region>.amazonaws.com/<key>`. -/
def getObjectURL (s3Bucket s3Region key : String) : String :=
  "https://" ++ s3Bucket ++ ".s3." ++ s3Region ++ ".amazonaws.com/" ++ key

/-- Embeds `calculateAspectRatio` (part_000/part_001).  Go `/` on `int`
truncates toward zero, hence `Int.tdiv`. -/
def calculateAspectRatio (width height : Int) : String :=
  if width = Int.tdiv (16 * height) 9 then "landscape"
  else if height = Int.tdiv (16 * width) 9 then "portrait"
  else "other"

/-- Embeds `getVideoAspectRatio` (part_000): the external prober run, the
JSON decode and the first-stream extraction are collapsed into the `probe`
outcome (error, or the first stream's width and height); on success the
result is `calculateAspectRatio` of those dimensions. -/
def getVideoAspectRatio (probe : Except String (Int × Int)) : Except String String :=
  match probe with
  | .error e => .error e
  | .ok (w, h) => .ok ( calculateAspectRatio w h)

/-- Outcome of the external world during one `processVideoForFastStart` call:
whether the remuxer run failed (with its diagnostic), and the result of
stat-ing the output path afterwards (`none` = stat error, `some n` = size). -/
structure TranscodeWorld where
  ffmpegExit : Option String
  statSize : Option Nat
deriving DecidableEq, Repr

/-- Embeds `processVideoForFastStart` (part_000/part_001): output path is
`<input>.processing`; error when the tool exits non-zero, when the output
cannot be stat-ed, or when the output has size zero; otherwise the output
path is returned. -/
def processVideoForFastStart (inputFilePath : String) (w : TranscodeWorld) :
    Except String String :=
  let faststartPath := inputFilePath ++ ".processing"
  match w.ffmpegExit with
  | some diag => .error ("ffmpeg error: " ++ diag)
  | none =>
    match w.statSize with
    | none => .error "could not stat processed file"
    | some size =>
      if size = 0 then .error "processed file is empty"
      else .ok faststartPath

/-- Embeds `generatePresignedURL` (part_000): the presign client call is the
`presign` parameter (bucket, key, expiry in seconds); a failure is wrapped
with a message, a success returns the signed URL unchanged. -/
def generatePresignedURL (presign : String → String → Nat → Except String String)
    (bucket key : String) (expireTime : Nat) : Except String String :=
  match presign bucket key expireTime with
  | .error e => .error ("could not create presign URL " ++ e)
  | .ok url => .ok url

/-- Models `database.Video` (internal/database, outside src/): the record the
handlers read and update, with its nullable URL fields. -/
structure Video where
  id : String
  title : String
  videoDescription : String
  userID : String
  thumbnailURL : Option String
  videoURL : Option String
deriving DecidableEq, Repr

/-- Embeds `dbVideoToSignedVideo` (part_000).  Go returns the pair
`(database.Video, error)`; we return the video and an optional error.  The Go
guard `len(urlParts) < 2` (splits of zero or one part pass through unchanged)
followed by indexing `urlParts[0]` and `urlParts[1]` is rendered as the
equivalent shape match on the split: the first part is the bucket, the second
the key, and the rest is ignored. -/
def dbVideoToSignedVideo (presign : String → String → Nat → Except String String)
    (video : Video) : Video × Option String :=
  match video.videoURL with
  | none => (video, none)
  | some url =>
    match goSplit url ',' with
    | [] => (video, none)
    | [_] => (video, none)
    | bucket :: key :: _ =>
      match generatePresignedURL presign bucket key (10 * 60) with
      | .error e => (video, some e)
      | .ok presignedURL => ({ video with videoURL := some presignedURL }, none)

/-- Embeds the constant `maxMemory` of handler_upload_thumbnail.go, the
budget passed to `r.ParseMultipartForm`: the Go source reads
`const maxMemory int64 = 10 >> 20`, a right shift. -/
def maxMemory : Int := 10 >>> 20

/-- Embeds the constant `maxUploadLimit` of handler_upload_video.go:
`1 << 30` (1 GiB), the request body cap. -/
def maxUploadLimit : Int := 1 <<< 30

/-- Observable events of `handlerUploadVideo`: HTTP responses written, object
store PUT calls and database update calls (the update event carries the
VideoURL value passed to `cfg.db.UpdateVideo`). -/
inductive Event where
  | respondError (status : Nat) (msg : String)
  | respondJSON (status : Nat)
  | s3PutObject (bucket key contentType : String)
  | dbUpdateVideo (videoURL : Option String)
deriving DecidableEq, Repr

/-- Which of the handler's two temporary files still exist on disk after the
handler returns (and after its deferred calls have run). -/
structure FinalFiles where
  tempFileExists : Bool
  processedFileExists : Bool
deriving DecidableEq, Repr

/-- One upload-video request together with the outcome of every external call
`handlerUploadVideo` makes: parsing and auth results, the video record's
owner, form and file-system outcomes, the remuxer and prober outcomes, the
random name drawn, the configured bucket and region, and the S3/DB outcomes. -/
structure UploadEnv where
  validVideoID : Bool
  bearerTokenOk : Bool
  jwtValid : Bool
  userID : String
  getVideoOk : Bool
  videoUserID : String
  formFileOk : Bool
  mediaTypeParseOk : Bool
  mediaType : String
  createTempOk : Bool
  tempFileName : String
  copyOk : Bool
  seekOk : Bool
  ffmpegExit : Option String
  ffmpegCreatesOutput : Bool
  outputSize : Nat
  openProcessedOk : Bool
  probe : Except String (Int × Int)
  randomID : String
  s3Bucket : String
  s3Region : String
  putObjectOk : Bool
  updateVideoOk : Bool

/-- The `TranscodeWorld` the handler's `processVideoForFastStart` call sees:
the remuxer exit outcome, and a stat result that succeeds with the output
size exactly when the remuxer created the output file. -/
def transcodeWorldOf (env : UploadEnv) : TranscodeWorld :=
  { ffmpegExit := env.ffmpegExit
    statSize := if env.ffmpegCreatesOutput then some env.outputSize else none }

/-- Embeds handler_upload_video.go from the `os.Open` of the processed file
onward (that open calls `respondWithError` without a following `return` in
the Go source, so a failed open falls through, which the embedding
reproduces): aspect probe, key derivation, S3 PUT, database update, JSON
response.  `e2` is the trace accumulated by the earlier steps.  Every return
in this region happens after the deferred removals of both temporary files
were registered, so the final state is always `⟨false, false⟩`. -/
def handlerUploadVideoTranscoded (env : UploadEnv) (e2 : List Event) :
    List Event × FinalFiles :=
  let e3 := e2 ++
    (if env.openProcessedOk then []
     else [.respondError 500 "Could not open encoded file"])
  match getVideoAspectRatio env.probe with
  | .error _ =>
    (e3 ++ [.respondError 500 "Could not handle aspect ratio"], ⟨false, false⟩)
  | .ok aspect =>
    let key := filepathJoin aspect
      (generateRandomNameWithExtensionType env.randomID env.mediaType)
    if ¬ env.putObjectOk then
      (e3 ++ [.s3PutObject env.s3Bucket key env.mediaType,
              .respondError 500 "Issue uploading video to S3"], ⟨false, false⟩)
    else
      let url := getObjectURL env.s3Bucket env.s3Region key
      if ¬ env.updateVideoOk then
        (e3 ++ [.s3PutObject env.s3Bucket key env.mediaType,
                .dbUpdateVideo (some url),
                .respondError 500 "Could not update video information"],
         ⟨false, false⟩)
      else
        (e3 ++ [.s3PutObject env.s3Bucket key env.mediaType,
                .dbUpdateVideo (some url),
                .respondJSON 200], ⟨false, false⟩)

/-- Embeds handler_upload_video.go from the `io.Copy` into the temp file
onward: at this point the temp file exists and its deferred removal is
registered, so every return has `tempFileExists = false`.  If
`processVideoForFastStart` fails, no removal of the output was deferred,
so the `.processing` file survives exactly when the remuxer created it. -/
def handlerUploadVideoStaged (env : UploadEnv) (e2 : List Event) :
    List Event × FinalFiles :=
  if ¬ env.copyOk then
    (e2 ++ [.respondError 500 "Could not write file to disk"], ⟨false, false⟩)
  else if ¬ env.seekOk then
    (e2 ++ [.respondError 500 "Could not reset file pointer"], ⟨false, false⟩)
  else
    match processVideoForFastStart env.tempFileName (transcodeWorldOf env) with
    | .error _ =>
      (e2 ++ [.respondError 500 "Could not process video"],
       ⟨false, env.ffmpegCreatesOutput⟩)
    | .ok _ => handlerUploadVideoTranscoded env e2

/-- Embeds `handlerUploadVideo` (handler_upload_video.go) branch by branch:
ID parse, bearer token, JWT, video lookup, ownership check, form file, media
type, temp-file creation, then `handlerUploadVideoStaged`.  Returns the event
trace and the final temp-file state.  Two branches of the Go source call
`respondWithError` without a following `return` and fall through — the
missing-bearer-token branch and the ownership-mismatch branch — and the
embedding reproduces that. -/
def handlerUploadVideo (env : UploadEnv) : List Event × FinalFiles :=
  if ¬ env.validVideoID then
    ([.respondError 400 "Invalid ID"], ⟨false, false⟩)
  else
    let e1 : List Event :=
      if env.bearerTokenOk then [] else [.respondError 401 "Could not find JWT"]
    if ¬ env.jwtValid then
      (e1 ++ [.respondError 401 "Could not validate JWT"], ⟨false, false⟩)
    else if ¬ env.getVideoOk then
      (e1 ++ [.respondError 500 "Could not find video"], ⟨false, false⟩)
    else
      let e2 := e1 ++
        (if env.videoUserID ≠ env.userID then
          [.respondError 401 "Not authorized to update video"]
        else [])
      if ¬ env.formFileOk then
        (e2 ++ [.respondError 400 "Could not parse form file"], ⟨false, false⟩)
      else if ¬ env.mediaTypeParseOk then
        (e2 ++ [.respondError 400 "Invalid Content-Type"], ⟨false, false⟩)
      else if env.mediaType ≠ "video/mp4" then
        (e2 ++ [.respondError 400 "Invalid media type, only mp4 is supported"],
         ⟨false, false⟩)
      else if ¬ env.createTempOk then
        (e2 ++ [.respondError 500 "Issue creating temp file"], ⟨false, false⟩)
      else
        handlerUploadVideoStaged env e2

/-! Concrete sample inputs used by the closed theorems below. -/

/-- An upload-video request in which every external step succeeds: the JWT
user owns the video, the file is an mp4, the remuxer writes a 1024-byte
output, and the prober reports a 1920 by 1080 stream. -/
def successEnv : UploadEnv :=
  { validVideoID := true
    bearerTokenOk := true
    jwtValid := true
    userID := "user-A"
    getVideoOk := true
    videoUserID := "user-A"
    formFileOk := true
    mediaTypeParseOk := true
    mediaType := "video/mp4"
    createTempOk := true
    tempFileName := "/tmp/tubely-upload.mp4"
    copyOk := true
    seekOk := true
    ffmpegExit := none
    ffmpegCreatesOutput := true
    outputSize := 1024
    openProcessedOk := true
    probe := .ok (1920, 1080)
    randomID := "RANDID"
    s3Bucket := "tubely-bkt"
    s3Region := "us-east-1"
    putObjectOk := true
    updateVideoOk := true }

/-- Same request, but the video record belongs to a different user than the
authenticated one. -/
def mismatchEnv : UploadEnv := { successEnv with videoUserID := "user-B" }

/-- Same request, but the remuxer reports success while writing a zero-byte
output file. -/
def emptyOutputEnv : UploadEnv := { successEnv with outputSize := 0 }

/-- A video record whose VideoURL is nil. -/
def sampleVideoNoURL : Video :=
  { id := "vid-1"
    title := "t"
    videoDescription := "d"
    userID := "user-A"
    thumbnailURL := none
    videoURL := none }

/-- A video record whose persisted VideoURL holds no comma (here, the
expanded URL form the upload handler actually persists). -/
def sampleVideoNoComma : Video :=
  { sampleVideoNoURL with
    videoURL := some "https://tubely-bkt.s3.us-east-1.amazonaws.com/landscape/RANDID.mp4" }

/-- A video record whose persisted VideoURL splits on the comma into three
parts. -/
def sampleVideoMulti : Video :=
  { sampleVideoNoURL with videoURL := some "a,b,c" }

/-- A presign client whose signing call always fails. -/
def presignFailing : String → String → Nat → Except String String :=
  fun _ _ _ => .error "boom"

/-- A presign client that succeeds, recording which bucket and key it was
given. -/
def presignConcat : String → String → Nat → Except String String :=
  fun bucket key _ => .ok ("signed-" ++ bucket ++ "-" ++ key)

/-! Helper lemmas shared by the claim theorems. -/

/-- The expanded object URL can never coincide with the comma-joined
bucket/key pair: their lengths differ by the fixed URL scaffolding. -/
theorem getObjectURL_ne_comma_pair (b r k : String) :
    getObjectURL b r k ≠ b ++ "," ++ k := by
  intro h
  have hl := congrArg String.length h
  have h8 : ("https://").length = 8 := rfl
  have h4 : (".s3.").length = 4 := rfl
  have h15 : (".amazonaws.com/").length = 15 := rfl
  have h1 : (",").length = 1 := rfl
  simp only [getObjectURL, String.length_append] at hl
  rw [h8, h4, h15, h1] at hl
  omega

/-- Every return of the post-transcode stage happens with both deferred
removals registered, so both files are gone. -/
theorem transcoded_files (env : UploadEnv) (e2 : List Event) :
    (handlerUploadVideoTranscoded env e2).2 = ⟨false, false⟩ := by
  unfold handlerUploadVideoTranscoded
  repeat' split
  all_goals rfl

/-- After staging, the temp file is always removed, and the processed file
can survive only when `processVideoForFastStart` failed. -/
theorem staged_files (env : UploadEnv) (e2 : List Event) :
    (handlerUploadVideoStaged env e2).2.tempFileExists = false ∧
    ((handlerUploadVideoStaged env e2).2.processedFileExists = true →
      ∃ e, processVideoForFastStart env.tempFileName (transcodeWorldOf env) =
        .error e) := by
  unfold handlerUploadVideoStaged
  repeat' split
  all_goals simp_all [transcoded_files]

/-- Whole-handler version of the cleanup facts. -/
theorem handler_files (env : UploadEnv) :
    (handlerUploadVideo env).2.tempFileExists = false ∧
    ((handlerUploadVideo env).2.processedFileExists = true →
      ∃ e, processVideoForFastStart env.tempFileName (transcodeWorldOf env) =
        .error e) := by
  unfold handlerUploadVideo
  repeat' split
  all_goals first
    | exact staged_files env _
    | exact ⟨rfl, by simp⟩

/-- Any database update performed by the post-transcode stage carries the
expanded object URL. -/
theorem transcoded_update (env : UploadEnv) (e2 : List Event) (u : String)
    (hne : ∀ v, Event.dbUpdateVideo v ∉ e2)
    (h : Event.dbUpdateVideo (some u) ∈ (handlerUploadVideoTranscoded env e2).1) :
    ∃ key, u = getObjectURL env.s3Bucket env.s3Region key := by
  unfold handlerUploadVideoTranscoded at h
  repeat' split at h
  all_goals simp_all [List.mem_append]

/-- Any database update performed by the staged stage carries the expanded
object URL. -/
theorem staged_update (env : UploadEnv) (e2 : List Event) (u : String)
    (hne : ∀ v, Event.dbUpdateVideo v ∉ e2)
    (h : Event.dbUpdateVideo (some u) ∈ (handlerUploadVideoStaged env e2).1) :
    ∃ key, u = getObjectURL env.s3Bucket env.s3Region key := by
  unfold handlerUploadVideoStaged at h
  repeat' split at h
  all_goals first
    | exact transcoded_update env e2 u hne h
    | simp_all [List.mem_append]

/-- Any database update performed by the handler carries the expanded object
URL. -/
theorem handler_update (env : UploadEnv) (u : String)
    (h : Event.dbUpdateVideo (some u) ∈ (handlerUploadVideo env).1) :
    ∃ key, u = getObjectURL env.s3Bucket env.s3Region key := by
  unfold handlerUploadVideo at h
  repeat' split at h
  all_goals first
    | (apply staged_update env _ u _ h; intro v; simp +decide [List.mem_append])
    | simp_all [List.mem_append]

/-- When the persisted URL splits into at least two comma parts, the signed
conversion is determined by the first two parts alone. -/
theorem dbVideo_split_two (presign : String → String → Nat → Except String String)
    (video : Video) (url p0 p1 : String) (rest : List String)
    (h1 : video.videoURL = some url) (h2 : goSplit url ',' = p0 :: p1 :: rest) :
    dbVideoToSignedVideo presign video =
      match generatePresignedURL presign p0 p1 (10 * 60) with
      | .error e => (video, some e)
      | .ok u => ({ video with videoURL := some u }, none) := by
  unfold dbVideoToSignedVideo
  simp only [h1]
  rw [h2]

/-! Claim theorems. -/

/-- C1, counterexample: on a fully successful upload the value written to the
video record is the expanded URL `https://tubely-bkt.s3.us-east-1.amazonaws.com/landscape/RANDID.mp4`,
which differs from the comma-joined pair `"tubely-bkt,landscape/RANDID.mp4"`
the claim prescribes. -/
theorem c1_counterexample :
    handlerUploadVideo successEnv =
      ([.s3PutObject "tubely-bkt" "landscape/RANDID.mp4" "video/mp4",
        .dbUpdateVideo
          (some "https://tubely-bkt.s3.us-east-1.amazonaws.com/landscape/RANDID.mp4"),
        .respondJSON 200], ⟨false, false⟩) ∧
    "https://tubely-bkt.s3.us-east-1.amazonaws.com/landscape/RANDID.mp4" ≠
      "tubely-bkt" ++ "," ++ "landscape/RANDID.mp4" := by decide

/-- C1, amended: every VideoURL value the upload handler passes to the
database update is the expanded public object URL
`https://<bucket>.s3.<region>.amazonaws.com/<key>` produced by
`getObjectURL`, and never the comma-joined `<bucket>,<key>` pair. -/
theorem c1_videoURL_expanded (env : UploadEnv) (u : String)
    (h : Event.dbUpdateVideo (some u) ∈ (handlerUploadVideo env).1) :
    ∃ key, u = getObjectURL env.s3Bucket env.s3Region key ∧
      u ≠ env.s3Bucket ++ "," ++ key := by
  obtain ⟨key, hk⟩ := handler_update env u h
  exact ⟨key, hk, by rw [hk]; exact getObjectURL_ne_comma_pair _ _ _⟩

/-- C1, witness: the amended theorem applied to the successful sample
request. -/
theorem c1_videoURL_expanded_witness :
    ∃ key,
      "https://tubely-bkt.s3.us-east-1.amazonaws.com/landscape/RANDID.mp4" =
        getObjectURL successEnv.s3Bucket successEnv.s3Region key ∧
      "https://tubely-bkt.s3.us-east-1.amazonaws.com/landscape/RANDID.mp4" ≠
        successEnv.s3Bucket ++ "," ++ key :=
  c1_videoURL_expanded successEnv _ (by decide)

/-- C2: on an ownership mismatch the Go handler calls `respondWithError`
without returning, so the 401 response is followed by the whole remaining
pipeline: the temp file is staged, the remuxer runs, the object is PUT to S3
and the video record is updated.  The claim (no further pipeline step) is
right about the intent, the code lacks the `return`. -/
theorem c2_ownership_mismatch_pipeline_continues :
    mismatchEnv.videoUserID ≠ mismatchEnv.userID ∧
    handlerUploadVideo mismatchEnv =
      ([.respondError 401 "Not authorized to update video",
        .s3PutObject "tubely-bkt" "landscape/RANDID.mp4" "video/mp4",
        .dbUpdateVideo
          (some "https://tubely-bkt.s3.us-east-1.amazonaws.com/landscape/RANDID.mp4"),
        .respondJSON 200], ⟨false, false⟩) := by decide

/-- C3, counterexample: when the remuxer reports success but writes a
zero-byte output, `processVideoForFastStart` fails and the handler returns
with the `.processing` file still on disk: no removal of it was ever
deferred. -/
theorem c3_counterexample :
    handlerUploadVideo emptyOutputEnv =
      ([.respondError 500 "Could not process video"], ⟨false, true⟩) ∧
    (handlerUploadVideo emptyOutputEnv).2.processedFileExists = true := by decide

/-- C3, amended: the staged temp file is deleted on every exit path, and the
transcoded output is deleted on every exit path on which
`processVideoForFastStart` succeeded; the output can remain on disk only
when `processVideoForFastStart` itself failed (after the tool created the
file, e.g. the zero-byte case). -/
theorem c3_cleanup (env : UploadEnv) :
    (handlerUploadVideo env).2.tempFileExists = false ∧
    ((handlerUploadVideo env).2.processedFileExists = true →
      ∃ e, processVideoForFastStart env.tempFileName (transcodeWorldOf env) =
        .error e) :=
  handler_files env

/-- C3, witness: the amended theorem applied to the zero-byte-output sample
request, on which the processed file does remain. -/
theorem c3_cleanup_witness :
    ∃ e, processVideoForFastStart emptyOutputEnv.tempFileName
      (transcodeWorldOf emptyOutputEnv) = .error e :=
  (c3_cleanup emptyOutputEnv).2 (by decide)

/-- C4: the thumbnail handler's form-parse budget constant is `10 >> 20`,
which is 0, not the 10 MiB (`10 << 20` = 10485760) that its own comment and
the spec state. -/
theorem c4_maxMemory_is_zero : maxMemory = 0 ∧ maxMemory ≠ 10 * 2 ^ 20 := by decide

/-- C5, counterexample: 17 by 10 is not an exact 16:9 ratio, yet the code
classifies it "landscape" (and in particular not "other"), because the check
is a truncated-division equality, not exact ratio equality. -/
theorem c5_counterexample :
    calculateAspectRatio 17 10 = "landscape" ∧
    9 * (17 : Int) ≠ 16 * 10 ∧
    calculateAspectRatio 17 10 ≠ "other" := by decide

/-- C5, amended: classification is exactly the truncated-division test:
landscape iff `width = (16*height)/9` (Go truncated division), portrait iff
not landscape and `height = (16*width)/9`, other iff neither; every exact
16:9 pair is still classified landscape, but so are some non-exact pairs,
so the classification is a tolerance band, not exact ratio equality. -/
theorem c5_truncated_band (w h : Int) :
    (9 * w = 16 * h → calculateAspectRatio w h = "landscape") ∧
    (calculateAspectRatio w h = "landscape" ↔ w = Int.tdiv (16 * h) 9) ∧
    (calculateAspectRatio w h = "portrait" ↔
      (w ≠ Int.tdiv (16 * h) 9 ∧ h = Int.tdiv (16 * w) 9)) ∧
    (calculateAspectRatio w h = "other" ↔
      (w ≠ Int.tdiv (16 * h) 9 ∧ h ≠ Int.tdiv (16 * w) 9)) := by
  have hexact : 9 * w = 16 * h → w = Int.tdiv (16 * h) 9 := by
    intro he
    rw [← he, Int.mul_tdiv_cancel_left w (by norm_num)]
  unfold calculateAspectRatio
  split_ifs with h1 h2
  · exact ⟨fun _ => rfl, iff_of_true rfl h1,
      iff_of_false (by decide) (fun hc => hc.1 h1),
      iff_of_false (by decide) (fun hc => hc.1 h1)⟩
  · exact ⟨fun he => absurd (hexact he) h1, iff_of_false (by decide) h1,
      iff_of_true rfl ⟨h1, h2⟩,
      iff_of_false (by decide) (fun hc => hc.2 h2)⟩
  · exact ⟨fun he => absurd (hexact he) h1, iff_of_false (by decide) h1,
      iff_of_false (by decide) (fun hc => h2 hc.2),
      iff_of_true rfl ⟨h1, h2⟩⟩

/-- C5, witness: the amended theorem applied to an exact 16:9 pair and to
the non-exact pair 17 by 10, both classified landscape. -/
theorem c5_truncated_band_witness :
    calculateAspectRatio 32 18 = "landscape" ∧
    calculateAspectRatio 17 10 = "landscape" :=
  ⟨(c5_truncated_band 32 18).1 (by decide),
   (c5_truncated_band 17 10).2.1.mpr (by decide)⟩

/-- C6: `calculateAspectRatio` returns "landscape" whenever
`width = 16*height/9` under Go integer division (which truncates toward
zero; on the non-negative dimensions the prober reports this is floor
division), "portrait" for the remaining pairs with `height = 16*width/9`,
and "other" otherwise; 1920 by 1080 is landscape, 1080 by 1920 portrait,
1920 by 1081 other. -/
theorem c6_division_rule :
    (∀ w h : Int,
      (w = Int.tdiv (16 * h) 9 → calculateAspectRatio w h = "landscape") ∧
      (w ≠ Int.tdiv (16 * h) 9 → h = Int.tdiv (16 * w) 9 →
        calculateAspectRatio w h = "portrait") ∧
      (w ≠ Int.tdiv (16 * h) 9 → h ≠ Int.tdiv (16 * w) 9 →
        calculateAspectRatio w h = "other")) ∧
    calculateAspectRatio 1920 1080 = "landscape" ∧
    calculateAspectRatio 1080 1920 = "portrait" ∧
    calculateAspectRatio 1920 1081 = "other" := by
  refine ⟨fun w h => ?_, by decide, by decide, by decide⟩
  unfold calculateAspectRatio
  split_ifs with h1 h2
  · exact ⟨fun _ => rfl, fun hn _ => absurd h1 hn, fun hn _ => absurd h1 hn⟩
  · exact ⟨fun hw => absurd hw h1, fun _ _ => rfl, fun _ hn => absurd h2 hn⟩
  · exact ⟨fun hw => absurd hw h1, fun _ hh => absurd hh h2, fun _ _ => rfl⟩

/-- C6, witness: the division rule applied to the three example
resolutions. -/
theorem c6_division_rule_witness :
    calculateAspectRatio 1920 1080 = "landscape" ∧
    calculateAspectRatio 1080 1920 = "portrait" ∧
    calculateAspectRatio 1920 1081 = "other" :=
  ⟨(c6_division_rule.1 1920 1080).1 (by decide),
   (c6_division_rule.1 1080 1920).2.1 (by decide) (by decide),
   (c6_division_rule.1 1920 1081).2.2 (by decide) (by decide)⟩

/-- C7: `processVideoForFastStart` returns an error exactly when the remuxer
exits non-zero, the output cannot be stat-ed, or the output size is zero;
in every other case it returns `<input>.processing`. -/
theorem c7_process_spec (p : String) (w : TranscodeWorld) :
    ((∃ e, processVideoForFastStart p w = .error e) ↔
      (w.ffmpegExit ≠ none ∨ w.statSize = none ∨ w.statSize = some 0)) ∧
    (¬ (w.ffmpegExit ≠ none ∨ w.statSize = none ∨ w.statSize = some 0) →
      processVideoForFastStart p w = .ok (p ++ ".processing")) := by
  obtain ⟨fe, ss⟩ := w
  unfold processVideoForFastStart
  cases fe <;> cases ss <;> simp_all
  rename_i n
  by_cases hn : n = 0 <;> simp_all

/-- C7, witness: a run where the tool succeeds and the output is non-empty
returns the `.processing` path. -/
theorem c7_process_spec_witness :
    processVideoForFastStart "input.mp4" ⟨none, some 1⟩ =
      .ok "input.mp4.processing" :=
  (c7_process_spec "input.mp4" ⟨none, some 1⟩).2 (by decide)

/-- C8: a nil persisted VideoURL, or one whose comma split has fewer than
two parts (no comma), is passed through by `dbVideoToSignedVideo` completely
unchanged and without error. -/
theorem c8_passthrough (presign : String → String → Nat → Except String String)
    (video : Video) :
    (video.videoURL = none → dbVideoToSignedVideo presign video = (video, none)) ∧
    (∀ url, video.videoURL = some url → (goSplit url ',').length < 2 →
      dbVideoToSignedVideo presign video = (video, none)) := by
  constructor
  · intro h
    unfold dbVideoToSignedVideo
    rw [h]
  · intro url h hlen
    unfold dbVideoToSignedVideo
    simp only [h]
    rcases hs : goSplit url ',' with _ | ⟨a, _ | ⟨b, tl⟩⟩
    · rfl
    · rfl
    · rw [hs] at hlen
      simp at hlen
      omega

/-- C8, witness: a nil URL and a comma-free URL (the expanded form the
handler persists) both pass through unchanged. -/
theorem c8_passthrough_witness :
    dbVideoToSignedVideo presignFailing sampleVideoNoURL =
      (sampleVideoNoURL, none) ∧
    dbVideoToSignedVideo presignFailing sampleVideoNoComma =
      (sampleVideoNoComma, none) :=
  ⟨(c8_passthrough presignFailing sampleVideoNoURL).1 rfl,
   (c8_passthrough presignFailing sampleVideoNoComma).2
     "https://tubely-bkt.s3.us-east-1.amazonaws.com/landscape/RANDID.mp4"
     rfl (by decide)⟩

/-- C9: when the persisted URL splits into two or more comma parts, the
first part is the bucket and the second the key; every remaining part is
ignored. -/
theorem c9_first_two_parts (presign : String → String → Nat → Except String String)
    (video : Video) (url p0 p1 : String) (rest : List String)
    (h1 : video.videoURL = some url) (h2 : goSplit url ',' = p0 :: p1 :: rest) :
    dbVideoToSignedVideo presign video =
      match generatePresignedURL presign p0 p1 (10 * 60) with
      | .error e => (video, some e)
      | .ok u => ({ video with videoURL := some u }, none) :=
  dbVideo_split_two presign video url p0 p1 rest h1 h2

/-- C9, witness: on the URL "a,b,c" the signer is called with bucket "a" and
key "b", and "c" is ignored. -/
theorem c9_first_two_parts_witness :
    dbVideoToSignedVideo presignConcat sampleVideoMulti =
      ({ sampleVideoMulti with videoURL := some "signed-a-b" }, none) := by
  have h := c9_first_two_parts presignConcat sampleVideoMulti "a,b,c" "a" "b" ["c"]
    rfl (by decide)
  exact h.trans (by rfl)

/-- C10: when the signing call fails, `dbVideoToSignedVideo` returns the
input record completely unchanged together with the (wrapped) error. -/
theorem c10_sign_error_unchanged
    (presign : String → String → Nat → Except String String)
    (video : Video) (url p0 p1 : String) (rest : List String) (e : String)
    (h1 : video.videoURL = some url) (h2 : goSplit url ',' = p0 :: p1 :: rest)
    (h3 : presign p0 p1 (10 * 60) = .error e) :
    dbVideoToSignedVideo presign video =
      (video, some ("could not create presign URL " ++ e)) := by
  rw [dbVideo_split_two presign video url p0 p1 rest h1 h2]
  unfold generatePresignedURL
  rw [h3]

/-- C10, witness: the failing signer leaves the sample record unchanged and
surfaces the wrapped error. -/
theorem c10_sign_error_unchanged_witness :
    dbVideoToSignedVideo presignFailing sampleVideoMulti =
      (sampleVideoMulti, some ("could not create presign URL " ++ "boom")) :=
  c10_sign_error_unchanged presignFailing sampleVideoMulti "a,b,c" "a" "b" ["c"]
    "boom" rfl (by decide) rfl

end Tubely
